import Mathlib

/-!
Verification of the Website_CRM allocator core: a shallow embedding of the
job / task-allocation lifecycle from `allocator/models.py` and
`allocator/views.py`, together with theorems settling the specification
claims about capacity checks, dependency gating, status derivation,
capacity release, allocation history, and job queries.

Conventions of the embedding:
* Django model rows become Lean structures; machine integers become `Int`
  (Python integers are unbounded, so no overflow modelling is needed).
* Nullable foreign keys become `Option Nat` (user ids); nullable strings
  become `Option String`; blank-able `URLField`s become `String` with `""`
  meaning unset (Django stores blank, and the code tests truthiness).
* Each view handler becomes a pure function from its inputs and the
  relevant database state to the persisted state plus an optional
  user-facing error message (`none` = success).  A handler that raises and
  is caught mid-way returns the partially persisted state, mirroring the
  absence of transactions in the source.
* The per-user tables (`WriterProfile`) are association lists
  `List (Nat × WriterProfile)` keyed by user id; `roleOf : Nat → Option String`
  models the `CustomUser` table (`none` = no such user).
-/

namespace CRM

/-- `allocator/models.py` `WriterProfile`: specialization, availability and
capacity fields used by the allocator views. -/
structure WriterProfile where
  is_it_writer : Bool
  is_nonit_writer : Bool
  is_finance_writer : Bool
  is_available : Bool
  is_sunday_off : Bool
  is_on_holiday : Bool
  is_overloaded : Bool
  max_jobs : Int
  current_jobs : Int
  max_words : Int
  current_words : Int
  total_jobs_assigned : Int
deriving DecidableEq, Repr

/-- `allocator/models.py` `Job`: the fields consumed by the allocator
lifecycle logic (category, software type, degree, word count, status and
the allocator comment written by cancel actions). -/
structure Job where
  job_category : String
  software_type : Option String
  degree : Nat
  word_count : Int
  status : String
  allocator_comment : Option String
deriving DecidableEq, Repr

/-- `allocator/models.py` `TaskAllocation`: one row per (job, task_type);
dates are abstract instants (`Int`), links are `""` when unset. -/
structure TaskAlloc where
  task_type : String
  allocated_to : Option Nat
  allocated_by : Option Nat
  status : String
  start_date_time : Option Int
  end_date_time : Option Int
  completed_at : Option Int
  writer_final_link : String
  summary_link : String
  process_final_link : String
  temperature_matched : Bool
  temperature_score : Option Rat
deriving DecidableEq, Repr

/-- `allocator/models.py` `AllocationHistory`: an audit row; the
allocation is identified by its task_type (unique per job). -/
structure HistoryRow where
  task_type : String
  action : String
  previous_user : Option Nat
  new_user : Option Nat
  changed_by : Nat
  reason : String
deriving DecidableEq, Repr

/-- `allocator/models.py` `JobQuery`: the fields written by raise_query. -/
structure JobQueryRow where
  raised_by : Nat
  query_text : String
  status : String
deriving DecidableEq, Repr

/-- Python `str.strip()` whitespace test (ASCII subset used by the app). -/
def isSpaceChar (c : Char) : Bool :=
  c == ' ' || c == '\t' || c == '\n' || c == '\r'

/-- Python `str.strip()`: drop whitespace from both ends. -/
def pyStrip (s : String) : String :=
  ⟨(((s.data.dropWhile isSpaceChar).reverse.dropWhile isSpaceChar).reverse)⟩

/-- Python `str.upper()` over the ASCII alphabet. -/
def pyUpper (s : String) : String := ⟨s.data.map Char.toUpper⟩

/-- `WriterProfile.can_accept_job` (`allocator/models.py` lines 262-280):
four gates checked in order, first failure wins. -/
def can_accept_job (p : WriterProfile) (job : Job) : Bool × String :=
  if !p.is_available || p.is_sunday_off || p.is_on_holiday || p.is_overloaded then
    (false, "Writer is not available")
  else if p.current_jobs ≥ p.max_jobs then
    (false, "Maximum job limit reached (" ++ toString p.max_jobs ++ ")")
  else if p.current_words + job.word_count > p.max_words then
    (false, "Word limit would be exceeded")
  else if job.job_category == "IT" && !p.is_it_writer then
    (false, "Not an IT writer")
  else
    (true, "Can accept job")

/-- Does `hay` start with `needle`? (used to model Python's `in`). -/
def matchesAt : List Char → List Char → Bool
  | [], _ => true
  | _ :: _, [] => false
  | a :: as, b :: bs => a == b && matchesAt as bs

/-- Python's substring membership `needle in hay`. -/
def hasSub (needle : List Char) : List Char → Bool
  | [] => needle.isEmpty
  | b :: bs => matchesAt needle (b :: bs) || hasSub needle bs

/-- Python truthiness-plus-membership test
`self.software_type and 'withsoftware' in self.software_type`. -/
def software_has_support (st : Option String) : Bool :=
  match st with
  | none => false
  | some s => (s ≠ "" : Bool) && hasSub "withsoftware".data s.data

/-- `Job.can_have_query` (`allocator/models.py` lines 130-136). -/
def can_have_query (j : Job) : Bool :=
  if j.degree == 0 then false
  else if j.degree ≥ 1 && software_has_support j.software_type then true
  else false

/-- The `new_status` computation inside `_sync_allocator_status`
(`allocator/views.py` lines 108-122): note Python's generator filter makes
the completed test vacuously true when no allocation has an assignee. -/
def derived_status (allocations : List TaskAlloc) : String :=
  if allocations.all (fun a => !a.allocated_to.isSome || a.status == "completed") then
    "completed"
  else if allocations.any
      (fun a => a.task_type == "content_creation" && a.status == "in_progress") then
    "in_progress"
  else if allocations.any (fun a => a.allocated_to.isSome) then
    "allocated"
  else
    "pending"

/-- `_sync_allocator_status` (`allocator/views.py` lines 104-126): derive
Job.status from the job's allocations; write only the status field. -/
def sync_allocator_status (job : Job) (allocations : List TaskAlloc) : Job :=
  if allocations = [] then job
  else if job.status ≠ derived_status allocations then
    { job with status := derived_status allocations }
  else job

/-- Look up a user's writer profile (the `WriterProfile` table, keyed by
user id; `none` models `WriterProfile.DoesNotExist`). -/
def lookupProfile : List (Nat × WriterProfile) → Nat → Option WriterProfile
  | [], _ => none
  | q :: rest, u => if q.1 = u then some q.2 else lookupProfile rest u

/-- Persist a field update on one user's profile row. -/
def updateProfile : List (Nat × WriterProfile) → Nat →
    (WriterProfile → WriterProfile) → List (Nat × WriterProfile)
  | [], _, _ => []
  | q :: rest, u, f =>
    (if q.1 = u then (q.1, f q.2) else q) :: updateProfile rest u f

/-- The release pattern `current_jobs = max(0, current_jobs - 1)`,
`current_words = max(0, current_words - word_count)` used by
`switch_writer` and `cancel_jobs`. -/
def release_capacity (wc : Int) (q : WriterProfile) : WriterProfile :=
  { q with current_jobs := max 0 (q.current_jobs - 1),
           current_words := max 0 (q.current_words - wc) }

/-- The charge pattern `current_jobs += 1`, `current_words += word_count`,
`total_jobs_assigned += 1` used by `switch_writer` and `allocate_job`. -/
def charge_capacity (wc : Int) (q : WriterProfile) : WriterProfile :=
  { q with current_jobs := q.current_jobs + 1,
           current_words := q.current_words + wc,
           total_jobs_assigned := q.total_jobs_assigned + 1 }

/-- Outcome of `switch_writer`: the persisted rows plus the optional
user-facing error (the view catches exceptions and shows an error while
keeping whatever was already saved). -/
structure SwitchResult where
  profiles : List (Nat × WriterProfile)
  allocation : TaskAlloc
  history : List HistoryRow
  error : Option String
deriving DecidableEq, Repr

/-- `switch_writer` (`allocator/views.py` lines 1164-1213): release the old
writer's capacity (clamped at zero), charge the new writer, reassign the
allocation and append one `switched` history row. -/
def switch_writer (roleOf : Nat → Option String)
    (profiles : List (Nat × WriterProfile)) (alloc : TaskAlloc) (job : Job)
    (history : List HistoryRow) (new_writer_id : Nat) (reason : String)
    (actor : Nat) : SwitchResult :=
  if roleOf new_writer_id ≠ some "writer" then
    ⟨profiles, alloc, history, some "Error switching writer: user not found"⟩
  else
    let old_writer := alloc.allocated_to
    let step1 : Option (List (Nat × WriterProfile)) :=
      match old_writer with
      | some w =>
        if roleOf w = some "writer" then
          match lookupProfile profiles w with
          | none => none
          | some _ =>
            some (updateProfile profiles w (release_capacity job.word_count))
        else some profiles
      | none => some profiles
    match step1 with
    | none => ⟨profiles, alloc, history, some "Error switching writer: writer profile missing"⟩
    | some profiles1 =>
      match lookupProfile profiles1 new_writer_id with
      | none => ⟨profiles1, alloc, history, some "Error switching writer: writer profile missing"⟩
      | some _ =>
        ⟨updateProfile profiles1 new_writer_id (charge_capacity job.word_count),
         { alloc with allocated_to := some new_writer_id },
         history ++ [⟨alloc.task_type, "switched", old_writer, some new_writer_id, actor, reason⟩],
         none⟩

/-- The capacity-release loop of `cancel_jobs` (`allocator/views.py` lines
885-890): walk the job's `content_creation` allocations only, decrement
each assigned writer's profile clamped at zero.  A missing profile row
raises out of the loop, keeping earlier saves. -/
def release_content_profiles (jobWordCount : Int) :
    List TaskAlloc → List (Nat × WriterProfile) →
    List (Nat × WriterProfile) × Option String
  | [], profiles => (profiles, none)
  | a :: rest, profiles =>
    if a.task_type == "content_creation" then
      match a.allocated_to with
      | some w =>
        match lookupProfile profiles w with
        | none => (profiles, some "writer profile missing")
        | some _ =>
          release_content_profiles jobWordCount rest
            (updateProfile profiles w (release_capacity jobWordCount))
      | none => release_content_profiles jobWordCount rest profiles
    else release_content_profiles jobWordCount rest profiles

/-- `cancel_jobs` POST branch (`allocator/views.py` lines 874-896): mark the
job cancelled, then free capacity for content_creation assignees only. -/
def cancel_jobs_post (job : Job) (allocations : List TaskAlloc)
    (profiles : List (Nat × WriterProfile)) (reason : String) :
    (Job × List (Nat × WriterProfile)) × Option String :=
  let job1 := { job with status := "cancelled", allocator_comment := some reason }
  let freed := release_content_profiles job.word_count allocations profiles
  ((job1, freed.1), freed.2)

/-- `view_job_details` cancel_job action (`allocator/views.py` lines
1423-1441): a justification of at least 10 stripped characters is required;
on success only the job row is written — no capacity is released. -/
def view_cancel_job (job : Job) (profiles : List (Nat × WriterProfile))
    (cancel_reason_raw : String) :
    (Job × List (Nat × WriterProfile)) × Option String :=
  let cancel_reason := pyStrip cancel_reason_raw
  if cancel_reason.length < 10 then
    ((job, profiles), some "Please provide a brief justification (at least 10 characters).")
  else
    (({ job with status := "cancelled", allocator_comment := some cancel_reason },
      profiles), none)

/-- `hold_jobs_allocator` POST branch (`allocator/views.py` lines 912-941),
composed with its `role_required(['allocator'])` decorator: `hold` stores
the manual override; `activate` resets to pending but only for a
marketing-role actor — who can never pass the decorator. -/
def hold_jobs_allocator_post (actor_role : String) (action : String)
    (job : Job) (comment : String) : Job × Option String :=
  if actor_role ≠ "allocator" then
    (job, some "You do not have permission to access this page.")
  else if action == "hold" then
    ({ job with status := "hold", allocator_comment := some comment }, none)
  else if action == "activate" then
    if actor_role == "marketing" then ({ job with status := "pending" }, none)
    else (job, some "Only marketing team can activate hold jobs!")
  else (job, none)

/-- `view_job_details` raise_query action (`allocator/views.py` lines
1443-1462): gate on `can_have_query`, require 10 stripped characters, then
create exactly one open `JobQuery`. -/
def raise_query (job : Job) (queries : List JobQueryRow) (actor : Nat)
    (query_text_raw : String) : List JobQueryRow × Option String :=
  if !(can_have_query job) then
    (queries, some "Queries are not enabled for this job (requires degree 1-5 with software support).")
  else
    let query_text := pyStrip query_text_raw
    if query_text.length < 10 then
      (queries, some "Please provide a detailed query (minimum 10 characters).")
    else
      (queries ++ [⟨actor, query_text, "open"⟩], none)

/-- Tail of the `process_jobs` POST handler (`allocator/views.py` lines
993-1008): the mark-complete gate and the final save.  `t` is the in-memory
task after the link/score updates, `orig` the row as stored; every
rejection returns before `task.save()`, so the stored row is unchanged. -/
def process_jobs_finish (t orig : TaskAlloc) (jobStatus : String)
    (mark_complete : Bool) (now : Int) : (TaskAlloc × String) × Option String :=
  if mark_complete then
    if t.writer_final_link = "" ∨ t.process_final_link = "" then
      ((orig, jobStatus), some "Provide both writer and process file links before marking complete.")
    else if t.temperature_score = none then
      ((orig, jobStatus), some "Please run a temperature check before marking complete.")
    else if !t.temperature_matched then
      ((orig, jobStatus), some "Temperature score below threshold. Cannot mark complete.")
    else
      (({ t with status := "completed", completed_at := some now }, "decoration"), none)
  else ((t, jobStatus), none)

/-- `if writer_link: task.writer_final_link = writer_link` with the
stripped POST value (`allocator/views.py` lines 971, 977-978). -/
def apply_writer_link (t : TaskAlloc) (raw : String) : TaskAlloc :=
  if pyStrip raw ≠ "" then { t with writer_final_link := pyStrip raw } else t

/-- `if summary_link: task.summary_link = summary_link`. -/
def apply_summary_link (t : TaskAlloc) (raw : String) : TaskAlloc :=
  if pyStrip raw ≠ "" then { t with summary_link := pyStrip raw } else t

/-- `if process_link: task.process_final_link = process_link`. -/
def apply_process_link (t : TaskAlloc) (raw : String) : TaskAlloc :=
  if pyStrip raw ≠ "" then { t with process_final_link := pyStrip raw } else t

/-- The three link updates of the `process_jobs` POST handler in order. -/
def apply_links (task : TaskAlloc) (wl sl pl : String) : TaskAlloc :=
  apply_process_link (apply_summary_link (apply_writer_link task wl) sl) pl

/-- `process_jobs` POST branch (`allocator/views.py` lines 960-1011) for an
existing `ai_plag` task: update links, record a temperature score
(`temperature_matched := score ≥ 70`), then run the completion gate.
`temperature_input = some none` models a non-numeric score string. -/
def process_jobs_post (task : TaskAlloc) (jobStatus : String)
    (writer_link_raw summary_link_raw process_link_raw : String)
    (temperature_input : Option (Option Rat)) (mark_complete : Bool)
    (now : Int) : (TaskAlloc × String) × Option String :=
  match temperature_input with
  | some none => ((task, jobStatus), some "Temperature score must be numeric.")
  | some (some score) =>
    process_jobs_finish
      { apply_links task writer_link_raw summary_link_raw process_link_raw with
        temperature_score := some score,
        temperature_matched := decide ((70 : ℚ) ≤ score) }
      task jobStatus mark_complete now
  | none =>
    process_jobs_finish
      (apply_links task writer_link_raw summary_link_raw process_link_raw)
      task jobStatus mark_complete now

/-- `allocate_job._assign_allocation` (`allocator/views.py` lines 498-534):
get-or-create the (job, task_type) allocation, append exactly one history
row (`allocated` on creation, `reallocated` on update), set the fields. -/
def assign_allocation (allocations : List TaskAlloc) (history : List HistoryRow)
    (actor : Nat) (task_type : String) (member : Nat)
    (start_dt end_dt : Option Int) (reason_label : String) :
    List TaskAlloc × List HistoryRow :=
  match allocations.find? (fun a => a.task_type == task_type) with
  | none =>
    (allocations ++
      [{ task_type := task_type, allocated_to := some member,
         allocated_by := some actor, status := "pending",
         start_date_time := start_dt, end_date_time := end_dt,
         completed_at := none, writer_final_link := "", summary_link := "",
         process_final_link := "", temperature_matched := false,
         temperature_score := none }],
     history ++ [⟨task_type, "allocated", none, some member, actor,
                  reason_label ++ " assigned"⟩])
  | some a =>
    (allocations.map (fun b =>
       if b.task_type == task_type then
         { b with allocated_to := some member, allocated_by := some actor,
                  status := "pending", start_date_time := start_dt,
                  end_date_time := end_dt }
       else b),
     history ++ [⟨task_type, "reallocated", a.allocated_to, some member, actor,
                  reason_label ++ " updated"⟩])

/-- Database state touched by `allocate_job` (one job's rows plus the
writer-profile table). -/
structure AllocateState where
  job : Job
  allocations : List TaskAlloc
  history : List HistoryRow
  profiles : List (Nat × WriterProfile)
deriving DecidableEq, Repr

/-- Content-creation branch of `allocate_job` (`allocator/views.py` lines
559-574): role-checked lookup, `_assign_allocation`, then charge the
writer's profile.  A failed lookup raises into the surrounding `except`,
keeping earlier writes. -/
def allocate_content (roleOf : Nat → Option String) (st : AllocateState)
    (actor : Nat) (content_writer : Option Nat) (s e : Option Int) :
    AllocateState × Option String :=
  match content_writer with
  | none => (st, none)
  | some w =>
    if roleOf w ≠ some "writer" then (st, some "Error allocating job")
    else
      let assigned := assign_allocation st.allocations st.history actor
        "content_creation" w s e "Content Creation"
      let st1 := { st with allocations := assigned.1, history := assigned.2 }
      match lookupProfile st.profiles w with
      | none => (st1, some "Error allocating job")
      | some _ =>
        ({ st1 with
           profiles := updateProfile st.profiles w
             (charge_capacity st.job.word_count) }, none)

/-- AI & plagiarism branch of `allocate_job` (`allocator/views.py` lines
576-585): role-checked lookup then `_assign_allocation` — no dependency
check against content_creation and no profile bookkeeping. -/
def allocate_ai (roleOf : Nat → Option String) (st : AllocateState)
    (actor : Nat) (ai_member : Option Nat) (s e : Option Int) :
    AllocateState × Option String :=
  match ai_member with
  | none => (st, none)
  | some u =>
    if roleOf u ≠ some "process" then (st, some "Error allocating job")
    else
      let assigned := assign_allocation st.allocations st.history actor
        "ai_plag" u s e "AI & Plagiarism"
      ({ st with allocations := assigned.1, history := assigned.2 }, none)

/-- Decoration branch of `allocate_job` (`allocator/views.py` lines
587-596): the user is looked up without a role filter. -/
def allocate_deco (roleOf : Nat → Option String) (st : AllocateState)
    (actor : Nat) (deco_member : Option Nat) (s e : Option Int) :
    AllocateState × Option String :=
  match deco_member with
  | none => (st, none)
  | some u =>
    if roleOf u = none then (st, some "Error allocating job")
    else
      let assigned := assign_allocation st.allocations st.history actor
        "decoration" u s e "Decoration"
      ({ st with allocations := assigned.1, history := assigned.2 }, none)

/-- `allocate_job` POST handler (`allocator/views.py` lines 536-612): run
the three optional branches in order, then stamp the job `allocated`.  An
exception in a branch aborts the rest but keeps earlier writes. -/
def allocate_job_post (roleOf : Nat → Option String) (st : AllocateState)
    (actor : Nat) (content_writer : Option Nat) (cs ce : Option Int)
    (ai_member : Option Nat) (as' ae : Option Int)
    (deco_member : Option Nat) (ds de : Option Int) :
    AllocateState × Option String :=
  match allocate_content roleOf st actor content_writer cs ce with
  | (st1, some err) => (st1, some err)
  | (st1, none) =>
    match allocate_ai roleOf st1 actor ai_member as' ae with
    | (st2, some err) => (st2, some err)
    | (st2, none) =>
      match allocate_deco roleOf st2 actor deco_member ds de with
      | (st3, some err) => (st3, some err)
      | (st3, none) =>
        ({ st3 with job := { st3.job with status := "allocated" } }, none)

/-- `TASK_CONFIG[...]['dependent_on']` (`allocator/views.py` lines 47-81). -/
def task_dependent_on : String → Option String
  | "ai_plag" => some "content_creation"
  | "decoration" => some "ai_plag"
  | _ => none

/-- `TASK_CONFIG[...]['label']`. -/
def task_label : String → String
  | "content_creation" => "Content Creation"
  | "ai_plag" => "AI & Plagiarism"
  | "decoration" => "Decoration"
  | _ => ""

/-- `TASK_CONFIG[...]['allowed_roles']`. -/
def task_allowed_roles : String → List String
  | "content_creation" => ["writer"]
  | "ai_plag" => ["process"]
  | "decoration" => ["writer", "process"]
  | _ => []

/-- Membership in `TASK_CONFIG`. -/
def task_config_has (t : String) : Bool :=
  (["content_creation", "ai_plag", "decoration"] : List String).contains t

/-- The status values offered by every task panel's `status_choices`. -/
def task_status_allowed (s : String) : Bool :=
  (["in_progress", "hold", "completed"] : List String).contains s

/-- The dependency gate of the update_task action (`allocator/views.py`
lines 1340-1345): the predecessor task (if any) must exist and have an
assignee. -/
def dependency_satisfied (allocations : List TaskAlloc) (task_type : String) : Bool :=
  match task_dependent_on task_type with
  | none => true
  | some dep =>
    match allocations.find? (fun a => a.task_type == dep) with
    | none => false
    | some p => p.allocated_to.isSome

/-- Member validation inside the update_task action (`allocator/views.py`
lines 1353-1370): existence, allowed role, and the IT-writer gate for
content_creation on IT jobs. -/
def update_task_member (roleOf : Nat → Option String)
    (profiles : List (Nat × WriterProfile)) (job : Job) (task_type : String)
    (member_input : Option Nat) : Except String (Option Nat) :=
  match member_input with
  | none => Except.ok none
  | some m =>
    match roleOf m with
    | none => Except.error "Selected team member was not found."
    | some r =>
      if !(task_allowed_roles task_type).contains r then
        Except.error (task_label task_type ++ " can only be assigned to " ++
          String.intercalate ", " (task_allowed_roles task_type) ++ " roles.")
      else if task_type == "content_creation" && pyUpper job.job_category == "IT" then
        match lookupProfile profiles m with
        | none => Except.error "IT jobs require IT-certified writers."
        | some p =>
          if !p.is_it_writer then Except.error "IT jobs require IT-certified writers."
          else Except.ok (some m)
      else Except.ok (some m)

/-- Database state touched by the update_task action. -/
structure UpdateState where
  job : Job
  allocations : List TaskAlloc
  history : List HistoryRow
deriving DecidableEq, Repr

/-- `view_job_details` update_task action (`allocator/views.py` lines
1330-1399): allocator-only, dependency gate, status whitelist, member
checks, date sanity, get-or-create of the allocation (note: no
`AllocationHistory` row on this path) and the job status sync. -/
def update_task (roleOf : Nat → Option String)
    (profiles : List (Nat × WriterProfile)) (st : UpdateState)
    (actor_role : String) (actor : Nat) (task_type : String)
    (status_value : String) (member_input : Option Nat)
    (start_input end_input : Option Int) (now : Int) :
    UpdateState × Option String :=
  if actor_role ≠ "allocator" then
    (st, some "Only allocators can update task assignments.")
  else if !task_config_has task_type then (st, some "Unknown task type.")
  else
    if !dependency_satisfied st.allocations task_type then
      (st, some (task_label task_type ++ " unlocks after assigning " ++
        task_label ((task_dependent_on task_type).getD "") ++ "."))
    else if !task_status_allowed status_value then
      (st, some "Invalid status option.")
    else
      match update_task_member roleOf profiles st.job task_type member_input with
      | Except.error msg => (st, some msg)
      | Except.ok member =>
        let start_dt := start_input.getD now
        let end_dt := end_input.getD (start_dt + 2)
        if end_dt ≤ start_dt then (st, some "End date must be after start date.")
        else
          let allocations1 :=
            match st.allocations.find? (fun a => a.task_type == task_type) with
            | none =>
              st.allocations ++
                [{ task_type := task_type, allocated_to := member,
                   allocated_by := some actor, status := status_value,
                   start_date_time := some start_dt, end_date_time := some end_dt,
                   completed_at := none, writer_final_link := "",
                   summary_link := "", process_final_link := "",
                   temperature_matched := false, temperature_score := none }]
            | some _ =>
              st.allocations.map (fun b =>
                if b.task_type == task_type then
                  { b with allocated_by := some actor, allocated_to := member,
                           start_date_time := some start_dt,
                           end_date_time := some end_dt, status := status_value }
                else b)
          ({ job := sync_allocator_status st.job allocations1,
             allocations := allocations1, history := st.history }, none)

/-! ### Spec-side gate predicates for §4.1 `can_accept` (refinement targets) -/

/-- Spec §4.1 gate 1 (availability), stated from the spec's words. -/
def gateAvail (p : WriterProfile) : Bool :=
  p.is_available && !p.is_sunday_off && !p.is_on_holiday && !p.is_overloaded

/-- Spec §4.1 gate 2 (job count), stated from the spec's words. -/
def gateJobs (p : WriterProfile) : Bool :=
  decide (p.current_jobs < p.max_jobs)

/-- Spec §4.1 gate 3 (word count), stated from the spec's words. -/
def gateWords (p : WriterProfile) (j : Job) : Bool :=
  decide (p.current_words + j.word_count ≤ p.max_words)

/-- Spec §4.1 gate 4 (specialization), stated from the spec's words. -/
def gateSpecial (p : WriterProfile) (j : Job) : Bool :=
  !(j.job_category == "IT") || p.is_it_writer

/-- A writer profile at its job limit (max_jobs = 5 = current_jobs),
otherwise unconstrained, used to probe claim C1. -/
def profileC1 : WriterProfile :=
  { is_it_writer := true, is_nonit_writer := true, is_finance_writer := true,
    is_available := true, is_sunday_off := false, is_on_holiday := false,
    is_overloaded := false, max_jobs := 5, current_jobs := 5,
    max_words := 100000, current_words := 0, total_jobs_assigned := 0 }

/-- A plain non-IT job with word_count 1000. -/
def jobC1 : Job :=
  { job_category := "NONIT", software_type := none, degree := 0,
    word_count := 1000, status := "pending", allocator_comment := none }

/-- Claim C1, counterexample: at max_jobs = current_jobs = 5 the code
returns the reason string "Maximum job limit reached (5)", not the
claimed "maximum job limit reached (5)" (and the success reason is
"Can accept job", not "can accept"). -/
theorem C1_counterexample :
    (can_accept_job profileC1 jobC1).1 = false ∧
    (can_accept_job profileC1 jobC1).2 ≠ "maximum job limit reached (5)" ∧
    (can_accept_job profileC1 jobC1).2 = "Maximum job limit reached (5)" := by
  decide

/-- The code's availability test is the negation of the spec's gate 1. -/
lemma availability_cond_eq (p : WriterProfile) :
    (!p.is_available || p.is_sunday_off || p.is_on_holiday || p.is_overloaded) =
      !gateAvail p := by
  unfold gateAvail
  cases p.is_available <;> cases p.is_sunday_off <;> cases p.is_on_holiday <;>
    cases p.is_overloaded <;> rfl

/-- The code's specialization test is the negation of the spec's gate 4. -/
lemma specialization_cond_eq (p : WriterProfile) (j : Job) :
    (j.job_category == "IT" && !p.is_it_writer) = !gateSpecial p j := by
  unfold gateSpecial
  cases h : (j.job_category == "IT") <;> cases hit : p.is_it_writer <;> rfl

/-- Claim C1 (amended): `can_accept_job` evaluates the four gates in the
fixed order availability, job-count, word-count, specialization with the
first failing gate determining the result; it returns
`(true, "Can accept job")` iff all gates pass, and otherwise `(false, r)`
where `r` is the first-failing gate's reason string as written in the code
("Writer is not available", "Maximum job limit reached (N)",
"Word limit would be exceeded", "Not an IT writer"). -/
theorem C1_gate_order (p : WriterProfile) (j : Job) :
    (gateAvail p = false →
      can_accept_job p j = (false, "Writer is not available")) ∧
    (gateAvail p = true → gateJobs p = false →
      can_accept_job p j =
        (false, "Maximum job limit reached (" ++ toString p.max_jobs ++ ")")) ∧
    (gateAvail p = true → gateJobs p = true → gateWords p j = false →
      can_accept_job p j = (false, "Word limit would be exceeded")) ∧
    (gateAvail p = true → gateJobs p = true → gateWords p j = true →
      gateSpecial p j = false →
      can_accept_job p j = (false, "Not an IT writer")) ∧
    (can_accept_job p j = (true, "Can accept job") ↔
      gateAvail p = true ∧ gateJobs p = true ∧ gateWords p j = true ∧
        gateSpecial p j = true) := by
  have c1 := availability_cond_eq p
  have c4 := specialization_cond_eq p j
  refine ⟨fun hA => ?_, fun hA hJ => ?_, fun hA hJ hW => ?_,
    fun hA hJ hW hSp => ?_, ?_⟩
  · unfold can_accept_job
    rw [c1, hA]
    rfl
  · have hge : p.current_jobs ≥ p.max_jobs := by
      have := of_decide_eq_false hJ
      omega
    unfold can_accept_job
    rw [c1, hA]
    simp only [Bool.not_true, if_neg (by simp : ¬ (false = true)), if_pos hge]
  · have hlt : p.current_jobs < p.max_jobs := of_decide_eq_true hJ
    have hgt : p.current_words + j.word_count > p.max_words := by
      have := of_decide_eq_false hW
      omega
    unfold can_accept_job
    rw [c1, hA]
    simp only [Bool.not_true, if_neg (by simp : ¬ (false = true)),
      if_neg (by omega : ¬ p.current_jobs ≥ p.max_jobs), if_pos hgt]
  · have hlt : p.current_jobs < p.max_jobs := of_decide_eq_true hJ
    have hle : p.current_words + j.word_count ≤ p.max_words := of_decide_eq_true hW
    unfold can_accept_job
    rw [c1, hA]
    simp only [Bool.not_true, if_neg (by simp : ¬ (false = true)),
      if_neg (by omega : ¬ p.current_jobs ≥ p.max_jobs),
      if_neg (by omega : ¬ p.current_words + j.word_count > p.max_words)]
    rw [c4, hSp]
    rfl
  · constructor
    · intro h
      by_cases hA : gateAvail p
      · by_cases hJ : gateJobs p
        · by_cases hW : gateWords p j
          · by_cases hSp : gateSpecial p j
            · exact ⟨hA, hJ, hW, hSp⟩
            · unfold can_accept_job at h
              rw [c1, hA] at h
              simp only [Bool.not_true, if_neg (by simp : ¬ (false = true)),
                if_neg (by have := of_decide_eq_true hJ; omega :
                  ¬ p.current_jobs ≥ p.max_jobs),
                if_neg (by have := of_decide_eq_true hW; omega :
                  ¬ p.current_words + j.word_count > p.max_words)] at h
              have hSp' : gateSpecial p j = false := Bool.eq_false_iff.mpr hSp
              rw [c4, hSp'] at h
              simp at h
          · have hgt : p.current_words + j.word_count > p.max_words := by
              have := of_decide_eq_false (Bool.eq_false_iff.mpr hW)
              omega
            unfold can_accept_job at h
            rw [c1, hA] at h
            simp only [Bool.not_true, if_neg (by simp : ¬ (false = true)),
              if_neg (by have := of_decide_eq_true hJ; omega :
                ¬ p.current_jobs ≥ p.max_jobs), if_pos hgt] at h
            simp at h
        · have hge : p.current_jobs ≥ p.max_jobs := by
            have := of_decide_eq_false (Bool.eq_false_iff.mpr hJ)
            omega
          unfold can_accept_job at h
          rw [c1, hA] at h
          simp only [Bool.not_true, if_neg (by simp : ¬ (false = true)),
            if_pos hge] at h
          simp at h
      · unfold can_accept_job at h
        rw [c1, Bool.eq_false_iff.mpr hA] at h
        simp at h
    · rintro ⟨hA, hJ, hW, hSp⟩
      unfold can_accept_job
      rw [c1, hA]
      simp only [Bool.not_true, if_neg (by simp : ¬ (false = true)),
        if_neg (by have := of_decide_eq_true hJ; omega :
          ¬ p.current_jobs ≥ p.max_jobs),
        if_neg (by have := of_decide_eq_true hW; omega :
          ¬ p.current_words + j.word_count > p.max_words)]
      rw [c4, hSp]
      rfl

/-- Claim C1 witness: the amended theorem applied to the max-jobs profile
and the probe job. -/
theorem C1_gate_order_witness :
    can_accept_job profileC1 jobC1 = (false, "Maximum job limit reached (5)") := by
  have h := (C1_gate_order profileC1 jobC1).2.1 (by decide) (by decide)
  exact h.trans (by decide)

/-- A degree-0 job whose software_type nonetheless names software. -/
def jobC7zero : Job :=
  { job_category := "IT", software_type := some "IT_withsoftware", degree := 0,
    word_count := 500, status := "pending", allocator_comment := none }

/-- A degree-1 job with software support. -/
def jobC7one : Job :=
  { job_category := "IT", software_type := some "IT_withsoftware", degree := 1,
    word_count := 500, status := "pending", allocator_comment := none }

/-- Claim C7: `can_have_query` is false at degree 0 regardless of
software_type, true when degree ≥ 1 and the software_type indicates
software support (contains "withsoftware" and is non-null/non-blank, per
the code's truthiness test), and false otherwise. -/
theorem C7_query_gate (j : Job) :
    (j.degree = 0 → can_have_query j = false) ∧
    (1 ≤ j.degree → software_has_support j.software_type = true →
      can_have_query j = true) ∧
    (software_has_support j.software_type = false → can_have_query j = false) := by
  unfold can_have_query
  refine ⟨fun h0 => ?_, fun h1 hs => ?_, fun hs => ?_⟩
  · simp [h0]
  · have : ¬(j.degree == 0) = true := by
      simp only [beq_iff_eq]
      omega
    simp [this, h1, hs]
  · by_cases h0 : j.degree = 0
    · simp [h0]
    · simp [h0, hs]

/-- Claim C7 witness: the theorem applied to a degree-0 job (false even
with software set) and to a degree-1 software job (true). -/
theorem C7_query_gate_witness :
    can_have_query jobC7zero = false ∧ can_have_query jobC7one = true := by
  refine ⟨(C7_query_gate jobC7zero).1 (by decide), ?_⟩
  exact (C7_query_gate jobC7one).2.1 (by decide) (by decide)

/-- A job carrying the manual `cancelled` override. -/
def jobC3 : Job :=
  { job_category := "NONIT", software_type := none, degree := 0,
    word_count := 100, status := "cancelled", allocator_comment := none }

/-- An assigned, still pending content_creation allocation. -/
def allocC3 : TaskAlloc :=
  { task_type := "content_creation", allocated_to := some 1,
    allocated_by := some 9, status := "pending", start_date_time := none,
    end_date_time := none, completed_at := none, writer_final_link := "",
    summary_link := "", process_final_link := "", temperature_matched := false,
    temperature_score := none }

/-- Claim C3, counterexample: the derivation run on a job whose status was
explicitly set to `cancelled` and that has one assigned pending allocation
overwrites the manual override with `allocated`. -/
theorem C3_counterexample :
    sync_allocator_status jobC3 [allocC3] = { jobC3 with status := "allocated" } ∧
    (sync_allocator_status jobC3 [allocC3]).status ≠ "cancelled" := by
  decide

/-- Claim C3 (amended): the job-level derivation writes nothing but
Job.status and is idempotent, but it does NOT protect a manual
`cancelled`/`hold` override: whenever the job has at least one
TaskAllocation the derived value replaces the override.  The explicit
activate action clears a hold only for a marketing-role actor, and since
the view admits only allocators it never changes the job at all. -/
theorem C3_sync_override :
    (∀ (job : Job) (allocs : List TaskAlloc),
      ∃ s, sync_allocator_status job allocs = { job with status := s }) ∧
    (∀ (job : Job) (allocs : List TaskAlloc),
      sync_allocator_status (sync_allocator_status job allocs) allocs =
        sync_allocator_status job allocs) ∧
    (∀ (job : Job) (allocs : List TaskAlloc), allocs ≠ [] →
      (job.status = "cancelled" ∨ job.status = "hold") →
      (sync_allocator_status job allocs).status ≠ job.status) ∧
    (∀ (role comment : String) (job : Job),
      (hold_jobs_allocator_post role "activate" job comment).1 = job) := by
  have derived_cases : ∀ (allocs : List TaskAlloc),
      derived_status allocs = "completed" ∨ derived_status allocs = "in_progress" ∨
      derived_status allocs = "allocated" ∨ derived_status allocs = "pending" := by
    intro allocs
    unfold derived_status
    split
    · exact Or.inl rfl
    · split
      · exact Or.inr (Or.inl rfl)
      · split
        · exact Or.inr (Or.inr (Or.inl rfl))
        · exact Or.inr (Or.inr (Or.inr rfl))
  refine ⟨fun job allocs => ?_, fun job allocs => ?_, fun job allocs hne hstat => ?_,
    fun role comment job => ?_⟩
  · unfold sync_allocator_status
    by_cases he : allocs = []
    · rw [if_pos he]
      exact ⟨job.status, rfl⟩
    · rw [if_neg he]
      by_cases hd : job.status ≠ derived_status allocs
      · rw [if_pos hd]
        exact ⟨derived_status allocs, rfl⟩
      · rw [if_neg hd]
        exact ⟨job.status, rfl⟩
  · unfold sync_allocator_status
    by_cases he : allocs = []
    · rw [if_pos he, if_pos he]
    · rw [if_neg he]
      by_cases hd : job.status ≠ derived_status allocs
      · rw [if_pos hd, if_neg he,
          if_neg (by simp : ¬ ({ job with status := derived_status allocs } : Job).status ≠
            derived_status allocs)]
      · rw [if_neg hd, if_neg he, if_neg hd]
  · unfold sync_allocator_status
    rw [if_neg hne]
    have hd : job.status ≠ derived_status allocs := by
      rcases derived_cases allocs with h | h | h | h <;> rcases hstat with hs | hs <;>
        rw [h, hs] <;> decide
    rw [if_pos hd]
    simpa using fun hcontra => hd hcontra.symm
  · unfold hold_jobs_allocator_post
    by_cases hr : role = "allocator"
    · subst hr
      simp
    · rw [if_pos hr]

/-- Claim C3 witness: the amended theorem's override clause applied to the
cancelled job with one assigned allocation, and the activate clause at a
concrete allocator actor. -/
theorem C3_sync_override_witness :
    (sync_allocator_status jobC3 [allocC3]).status ≠ jobC3.status ∧
    (hold_jobs_allocator_post "allocator" "activate" jobC3 "go").1 = jobC3 := by
  refine ⟨C3_sync_override.2.2.1 jobC3 [allocC3] (by decide) (Or.inl rfl), ?_⟩
  exact C3_sync_override.2.2.2 "allocator" "go" jobC3

/-- Updating user `u`'s row maps that row's profile through `f`. -/
lemma lookupProfile_updateProfile_self (ps : List (Nat × WriterProfile))
    (u : Nat) (f : WriterProfile → WriterProfile) :
    lookupProfile (updateProfile ps u f) u = (lookupProfile ps u).map f := by
  induction ps with
  | nil => rfl
  | cons hd tl ih =>
    by_cases h : hd.1 = u
    · simp [updateProfile, lookupProfile, h]
    · simp [updateProfile, lookupProfile, h, ih]

/-- Updating user `u`'s row leaves every other user's lookup unchanged. -/
lemma lookupProfile_updateProfile_ne (ps : List (Nat × WriterProfile))
    (u v : Nat) (f : WriterProfile → WriterProfile) (h : u ≠ v) :
    lookupProfile (updateProfile ps u f) v = lookupProfile ps v := by
  induction ps with
  | nil => rfl
  | cons hd tl ih =>
    by_cases hu : hd.1 = u
    · have hv : hd.1 ≠ v := fun hc => h (hu ▸ hc ▸ rfl)
      simp [updateProfile, lookupProfile, hu, hv, ih,
        (by simpa [hu] using hv : u ≠ v)]
    · by_cases hv : hd.1 = v
      · simp [updateProfile, lookupProfile, hu, hv, Ne.symm h]
      · simp [updateProfile, lookupProfile, hu, hv, ih]

/-- Full evaluation of `switch_writer` on its success path: old writer
assigned and resolvable, new writer valid with a profile row. -/
lemma switch_writer_eq (roleOf : Nat → Option String)
    (profiles : List (Nat × WriterProfile)) (alloc : TaskAlloc) (job : Job)
    (history : List HistoryRow) (w1 w2 actor : Nat) (reason : String)
    (p1 : WriterProfile)
    (halloc : alloc.allocated_to = some w1)
    (hw1 : roleOf w1 = some "writer") (hw2 : roleOf w2 = some "writer")
    (hp1 : lookupProfile profiles w1 = some p1)
    (hp2 : (lookupProfile
      (updateProfile profiles w1 (release_capacity job.word_count)) w2).isSome) :
    switch_writer roleOf profiles alloc job history w2 reason actor =
      ⟨updateProfile (updateProfile profiles w1 (release_capacity job.word_count))
         w2 (charge_capacity job.word_count),
       { alloc with allocated_to := some w2 },
       history ++ [⟨alloc.task_type, "switched", some w1, some w2, actor, reason⟩],
       none⟩ := by
  obtain ⟨r, hr⟩ := Option.isSome_iff_exists.mp hp2
  unfold switch_writer
  rw [if_neg (by simp [hw2])]
  simp only [halloc, hw1, if_pos, hp1, hr]

/-- Two writers, users 1 and 2. -/
def roleC4 : Nat → Option String :=
  fun u => if u == 1 || u == 2 then some "writer" else none

/-- An available writer profile with zero load. -/
def pC4zero : WriterProfile :=
  { is_it_writer := true, is_nonit_writer := true, is_finance_writer := true,
    is_available := true, is_sunday_off := false, is_on_holiday := false,
    is_overloaded := false, max_jobs := 5, current_jobs := 0,
    max_words := 10000, current_words := 0, total_jobs_assigned := 0 }

/-- An available writer profile carrying one job of 1000 words. -/
def pC4one : WriterProfile :=
  { pC4zero with current_jobs := 1, current_words := 1000 }

/-- A 1000-word job. -/
def jobC4 : Job :=
  { job_category := "NONIT", software_type := none, degree := 0,
    word_count := 1000, status := "allocated", allocator_comment := none }

/-- A content_creation allocation currently assigned to writer 1. -/
def allocC4 : TaskAlloc :=
  { task_type := "content_creation", allocated_to := some 1,
    allocated_by := some 9, status := "in_progress", start_date_time := none,
    end_date_time := none, completed_at := none, writer_final_link := "",
    summary_link := "", process_final_link := "", temperature_matched := false,
    temperature_score := none }

/-- Claim C4, counterexample: switching away from writer 1 whose profile
already records current_jobs = 0 leaves the counter at 0 (the code clamps
with `max(0, ...)`), so the counter is NOT decremented by 1 as claimed. -/
theorem C4_counterexample :
    (lookupProfile
      (switch_writer roleC4 [(1, pC4zero), (2, pC4zero)] allocC4 jobC4 [] 2 "load" 9).profiles
      1).map WriterProfile.current_jobs = some 0 ∧
    pC4zero.current_jobs - 1 = -1 ∧ (0 : Int) ≠ -1 := by
  decide

/-- Claim C4 (amended): when the old assignee W1 is a writer whose profile
records at least one job and at least the job's word count, switching to a
distinct writer W2 decrements W1's current_jobs by 1 and current_words by
the job's word count (in general the decrements are clamped at zero),
increments W2's counters, reassigns the allocation to W2 and appends
exactly one `switched` history row with previous_user = W1 and
new_user = W2. -/
theorem C4_switch_semantics (roleOf : Nat → Option String)
    (profiles : List (Nat × WriterProfile)) (alloc : TaskAlloc) (job : Job)
    (history : List HistoryRow) (w1 w2 actor : Nat) (reason : String)
    (p1 p2 : WriterProfile)
    (halloc : alloc.allocated_to = some w1) (hne : w1 ≠ w2)
    (hw1 : roleOf w1 = some "writer") (hw2 : roleOf w2 = some "writer")
    (hp1 : lookupProfile profiles w1 = some p1)
    (hp2 : lookupProfile profiles w2 = some p2)
    (hjobs : 1 ≤ p1.current_jobs) (hwords : job.word_count ≤ p1.current_words) :
    (switch_writer roleOf profiles alloc job history w2 reason actor).error = none ∧
    lookupProfile
      (switch_writer roleOf profiles alloc job history w2 reason actor).profiles w1 =
      some { p1 with current_jobs := p1.current_jobs - 1,
                     current_words := p1.current_words - job.word_count } ∧
    lookupProfile
      (switch_writer roleOf profiles alloc job history w2 reason actor).profiles w2 =
      some { p2 with current_jobs := p2.current_jobs + 1,
                     current_words := p2.current_words + job.word_count,
                     total_jobs_assigned := p2.total_jobs_assigned + 1 } ∧
    (switch_writer roleOf profiles alloc job history w2 reason actor).allocation =
      { alloc with allocated_to := some w2 } ∧
    (switch_writer roleOf profiles alloc job history w2 reason actor).history =
      history ++ [⟨alloc.task_type, "switched", some w1, some w2, actor, reason⟩] := by
  have hp2' : lookupProfile
      (updateProfile profiles w1 (release_capacity job.word_count)) w2 = some p2 := by
    rw [lookupProfile_updateProfile_ne _ _ _ _ hne]
    exact hp2
  have heq := switch_writer_eq roleOf profiles alloc job history w1 w2 actor reason
    p1 halloc hw1 hw2 hp1 (by rw [hp2']; rfl)
  rw [heq]
  refine ⟨rfl, ?_, ?_, rfl, rfl⟩
  · rw [lookupProfile_updateProfile_ne _ _ _ _ (Ne.symm hne),
      lookupProfile_updateProfile_self, hp1]
    have h1 : max 0 (p1.current_jobs - 1) = p1.current_jobs - 1 :=
      max_eq_right (by omega)
    have h2 : max 0 (p1.current_words - job.word_count) =
        p1.current_words - job.word_count := max_eq_right (by omega)
    simp only [Option.map_some', release_capacity, h1, h2]
  · rw [lookupProfile_updateProfile_self, hp2']
    rfl

/-- Claim C4 witness: the amended theorem at writers 1 → 2 where writer 1
carries exactly one 1000-word job. -/
theorem C4_switch_semantics_witness :
    (switch_writer roleC4 [(1, pC4one), (2, pC4zero)] allocC4 jobC4 [] 2 "load" 9).error = none ∧
    lookupProfile
      (switch_writer roleC4 [(1, pC4one), (2, pC4zero)] allocC4 jobC4 [] 2 "load" 9).profiles 1 =
      some { pC4one with current_jobs := pC4one.current_jobs - 1,
                         current_words := pC4one.current_words - jobC4.word_count } ∧
    lookupProfile
      (switch_writer roleC4 [(1, pC4one), (2, pC4zero)] allocC4 jobC4 [] 2 "load" 9).profiles 2 =
      some { pC4zero with current_jobs := pC4zero.current_jobs + 1,
                          current_words := pC4zero.current_words + jobC4.word_count,
                          total_jobs_assigned := pC4zero.total_jobs_assigned + 1 } ∧
    (switch_writer roleC4 [(1, pC4one), (2, pC4zero)] allocC4 jobC4 [] 2 "load" 9).allocation =
      { allocC4 with allocated_to := some 2 } ∧
    (switch_writer roleC4 [(1, pC4one), (2, pC4zero)] allocC4 jobC4 [] 2 "load" 9).history =
      [] ++ [⟨allocC4.task_type, "switched", some 1, some 2, 9, "load"⟩] :=
  C4_switch_semantics roleC4 [(1, pC4one), (2, pC4zero)] allocC4 jobC4 [] 1 2 9 "load"
    pC4one pC4zero rfl (by decide) rfl rfl rfl rfl (by decide) (by decide)

/-- A released profile always carries clamped, hence nonnegative, counters. -/
lemma release_capacity_nonneg (wc : Int) (q : WriterProfile) :
    0 ≤ (release_capacity wc q).current_jobs ∧
    0 ≤ (release_capacity wc q).current_words :=
  ⟨le_max_left 0 _, le_max_left 0 _⟩

/-- After the cancel walk, every profile is either untouched or ends with
clamped (nonnegative) counters. -/
lemma release_content_profiles_lookup (wc : Int) (allocs : List TaskAlloc)
    (ps : List (Nat × WriterProfile)) (u : Nat) (q : WriterProfile)
    (h : lookupProfile (release_content_profiles wc allocs ps).1 u = some q) :
    (0 ≤ q.current_jobs ∧ 0 ≤ q.current_words) ∨ lookupProfile ps u = some q := by
  induction allocs generalizing ps with
  | nil => exact Or.inr h
  | cons a rest ih =>
    unfold release_content_profiles at h
    by_cases hct : (a.task_type == "content_creation") = true
    · rw [if_pos hct] at h
      cases hao : a.allocated_to with
      | none =>
        simp only [hao] at h
        exact ih ps h
      | some w =>
        simp only [hao] at h
        cases hlp : lookupProfile ps w with
        | none =>
          simp only [hlp] at h
          exact Or.inr h
        | some p =>
          simp only [hlp] at h
          rcases ih _ h with hb | hlook
          · exact Or.inl hb
          · by_cases huw : w = u
            · subst huw
              rw [lookupProfile_updateProfile_self, hlp] at hlook
              simp only [Option.map_some', Option.some.injEq] at hlook
              subst hlook
              exact Or.inl (release_capacity_nonneg wc p)
            · rw [lookupProfile_updateProfile_ne _ _ _ _ huw] at hlook
              exact Or.inr hlook
    · rw [if_neg hct] at h
      exact ih ps h

/-- Claim C9: both capacity-release paths clamp at zero.  Switching away
from a resolvable old writer leaves that writer's counters nonnegative
(whatever they were before, and whether or not the new writer's profile
resolves), and after the cancel walk every content_creation assignee whose
release actually ran has nonnegative counters. -/
theorem C9_release_clamped :
    (∀ (roleOf : Nat → Option String) (profiles : List (Nat × WriterProfile))
       (alloc : TaskAlloc) (job : Job) (history : List HistoryRow)
       (w1 w2 actor : Nat) (reason : String) (p1 q : WriterProfile),
      0 ≤ job.word_count →
      alloc.allocated_to = some w1 →
      roleOf w1 = some "writer" → roleOf w2 = some "writer" →
      lookupProfile profiles w1 = some p1 →
      lookupProfile
        (switch_writer roleOf profiles alloc job history w2 reason actor).profiles w1 =
        some q →
      0 ≤ q.current_jobs ∧ 0 ≤ q.current_words) ∧
    (∀ (wc : Int) (allocs : List TaskAlloc) (ps : List (Nat × WriterProfile))
       (u : Nat) (q : WriterProfile),
      (∃ a ∈ allocs, a.task_type = "content_creation" ∧ a.allocated_to = some u) →
      (release_content_profiles wc allocs ps).2 = none →
      lookupProfile (release_content_profiles wc allocs ps).1 u = some q →
      0 ≤ q.current_jobs ∧ 0 ≤ q.current_words) := by
  constructor
  · intro roleOf profiles alloc job history w1 w2 actor reason p1 q
    intro hwc halloc hw1 hw2 hp1 hlook
    unfold switch_writer at hlook
    rw [if_neg (by simp [hw2])] at hlook
    simp only [halloc, hw1, if_pos, hp1] at hlook
    cases hc : lookupProfile
        (updateProfile profiles w1 (release_capacity job.word_count)) w2 with
    | none =>
      rw [hc] at hlook
      simp only at hlook
      rw [lookupProfile_updateProfile_self, hp1] at hlook
      simp only [Option.map_some', Option.some.injEq] at hlook
      subst hlook
      exact release_capacity_nonneg job.word_count p1
    | some r =>
      rw [hc] at hlook
      simp only at hlook
      by_cases hww : w2 = w1
      · subst hww
        rw [lookupProfile_updateProfile_self,
          lookupProfile_updateProfile_self, hp1] at hlook
        simp only [Option.map_some', Option.some.injEq] at hlook
        subst hlook
        refine ⟨?_, ?_⟩
        · have := le_max_left (0 : Int) ((release_capacity job.word_count p1).current_jobs - 1 + 1)
          simp only [charge_capacity, release_capacity]
          have h0 : (0 : Int) ≤ max 0 (p1.current_jobs - 1) := le_max_left 0 _
          omega
        · simp only [charge_capacity, release_capacity]
          have h0 : (0 : Int) ≤ max 0 (p1.current_words - job.word_count) := le_max_left 0 _
          omega
      · rw [lookupProfile_updateProfile_ne _ _ _ _ hww,
          lookupProfile_updateProfile_self, hp1] at hlook
        simp only [Option.map_some', Option.some.injEq] at hlook
        subst hlook
        exact release_capacity_nonneg job.word_count p1
  · intro wc allocs ps u q hex herr hlook
    induction allocs generalizing ps with
    | nil => simp at hex
    | cons a rest ih =>
      unfold release_content_profiles at herr hlook
      by_cases hct : (a.task_type == "content_creation") = true
      · rw [if_pos hct] at herr hlook
        cases hao : a.allocated_to with
        | none =>
          simp only [hao] at herr hlook
          rcases hex with ⟨b, hb, hbt, hba⟩
          rcases List.mem_cons.mp hb with rfl | hbrest
          · rw [hao] at hba
            exact absurd hba (by simp)
          · exact ih ps ⟨b, hbrest, hbt, hba⟩ herr hlook
        | some w =>
          simp only [hao] at herr hlook
          cases hlp : lookupProfile ps w with
          | none =>
            simp only [hlp] at herr
            exact absurd herr (by simp)
          | some p =>
            simp only [hlp] at herr hlook
            rcases hex with ⟨b, hb, hbt, hba⟩
            rcases List.mem_cons.mp hb with rfl | hbrest
            · rw [hao] at hba
              have huw : w = u := by simpa using hba
              subst huw
              rcases release_content_profiles_lookup wc rest _ w q hlook with hb2 | hlook2
              · exact hb2
              · rw [lookupProfile_updateProfile_self, hlp] at hlook2
                simp only [Option.map_some', Option.some.injEq] at hlook2
                subst hlook2
                exact release_capacity_nonneg wc p
            · exact ih _ ⟨b, hbrest, hbt, hba⟩ herr hlook
      · rw [if_neg hct] at herr hlook
        rcases hex with ⟨b, hb, hbt, hba⟩
        rcases List.mem_cons.mp hb with rfl | hbrest
        · exact absurd (by simpa using hbt) hct
        · exact ih ps ⟨b, hbrest, hbt, hba⟩ herr hlook

/-- A writer user 3 and a process-free second writer 4 for the C9 probe. -/
def roleC9 : Nat → Option String :=
  fun u => if u == 3 || u == 4 then some "writer" else none

/-- A profile with zero counters about to be released further. -/
def pC9 : WriterProfile :=
  { is_it_writer := true, is_nonit_writer := true, is_finance_writer := true,
    is_available := true, is_sunday_off := false, is_on_holiday := false,
    is_overloaded := false, max_jobs := 5, current_jobs := 0,
    max_words := 10000, current_words := 0, total_jobs_assigned := 0 }

/-- A 500-word job for the C9 probe. -/
def jobC9 : Job :=
  { job_category := "NONIT", software_type := none, degree := 0,
    word_count := 500, status := "allocated", allocator_comment := none }

/-- A content_creation allocation assigned to writer 3. -/
def allocC9 : TaskAlloc :=
  { task_type := "content_creation", allocated_to := some 3,
    allocated_by := some 9, status := "in_progress", start_date_time := none,
    end_date_time := none, completed_at := none, writer_final_link := "",
    summary_link := "", process_final_link := "", temperature_matched := false,
    temperature_score := none }

/-- Claim C9 witness: the switch clause applied at a zero-counter profile
— the release clamps and the counters stay nonnegative. -/
theorem C9_release_clamped_witness :
    0 ≤ (release_capacity 500 pC9).current_jobs ∧
    0 ≤ (release_capacity 500 pC9).current_words :=
  C9_release_clamped.1 roleC9 [(3, pC9), (4, pC9)] allocC9 jobC9 [] 3 4 9 "r"
    pC9 (release_capacity 500 pC9) (by decide) rfl rfl rfl rfl (by decide)

/-- The temperature bookkeeping invariant: a set `temperature_matched`
flag always comes with a recorded score of at least 70 (the only writer of
these fields sets them together). -/
def temp_invariant (t : TaskAlloc) : Prop :=
  t.temperature_matched = true → ∃ s, t.temperature_score = some s ∧ (70 : ℚ) ≤ s

/-- The link updates never touch status, completion or temperature data. -/
lemma apply_links_preserves (task : TaskAlloc) (wl sl pl : String) :
    (apply_links task wl sl pl).temperature_matched = task.temperature_matched ∧
    (apply_links task wl sl pl).temperature_score = task.temperature_score ∧
    (apply_links task wl sl pl).status = task.status ∧
    (apply_links task wl sl pl).completed_at = task.completed_at := by
  unfold apply_links apply_writer_link apply_summary_link apply_process_link
  split <;> split <;> split <;> exact ⟨rfl, rfl, rfl, rfl⟩

/-- Case analysis of the mark-complete gate
(`allocator/views.py` lines 993-1006). -/
lemma process_jobs_finish_spec (t orig : TaskAlloc) (jobStatus : String)
    (now : Int) (t' : TaskAlloc) (js' : String) (err : Option String)
    (hrun : process_jobs_finish t orig jobStatus true now = ((t', js'), err)) :
    (err = none →
      t' = { t with status := "completed", completed_at := some now } ∧
      ¬ t.writer_final_link = "" ∧ ¬ t.process_final_link = "" ∧
      t.temperature_score ≠ none ∧ t.temperature_matched = true) ∧
    (err ≠ none → t' = orig) := by
  unfold process_jobs_finish at hrun
  rw [if_pos rfl] at hrun
  by_cases h1 : t.writer_final_link = "" ∨ t.process_final_link = ""
  · rw [if_pos h1] at hrun
    simp only [Prod.mk.injEq] at hrun
    obtain ⟨⟨ht, _⟩, herr⟩ := hrun
    exact ⟨fun he => absurd (herr.trans he) (by simp),
      fun _ => ht.symm⟩
  · rw [if_neg h1] at hrun
    by_cases h2 : t.temperature_score = none
    · rw [if_pos h2] at hrun
      simp only [Prod.mk.injEq] at hrun
      obtain ⟨⟨ht, _⟩, herr⟩ := hrun
      exact ⟨fun he => absurd (herr.trans he) (by simp), fun _ => ht.symm⟩
    · rw [if_neg h2] at hrun
      by_cases h3 : t.temperature_matched = true
      · rw [if_neg (by simp [h3] : ¬ (!t.temperature_matched) = true)] at hrun
        simp only [Prod.mk.injEq] at hrun
        obtain ⟨⟨ht, _⟩, herr⟩ := hrun
        push_neg at h1
        exact ⟨fun _ => ⟨ht.symm, h1.1, h1.2, h2, h3⟩,
          fun hne => absurd herr.symm hne⟩
      · rw [if_pos (by simp [Bool.eq_false_iff.mpr h3] :
          (!t.temperature_matched) = true)] at hrun
        simp only [Prod.mk.injEq] at hrun
        obtain ⟨⟨ht, _⟩, herr⟩ := hrun
        exact ⟨fun he => absurd (herr.trans he) (by simp), fun _ => ht.symm⟩

/-- Claim C10: with mark_completed requested, the `ai_plag` task is stored
as completed only when — after this request's own field updates — both the
writer and process final links are set and a temperature score is recorded
whose value is at least 70 (`temperature_matched`); on any rejection the
stored row (in particular status and completed_at) is unchanged, and the
temperature invariant is preserved. -/
theorem C10_mark_complete_gate (task : TaskAlloc) (jobStatus : String)
    (wl sl pl : String) (ti : Option (Option ℚ)) (now : Int)
    (t' : TaskAlloc) (js' : String) (err : Option String)
    (hrun : process_jobs_post task jobStatus wl sl pl ti true now = ((t', js'), err))
    (hinv : temp_invariant task) :
    (err = none →
      t'.status = "completed" ∧ t'.completed_at = some now ∧
      t'.writer_final_link ≠ "" ∧ t'.process_final_link ≠ "" ∧
      ∃ s, t'.temperature_score = some s ∧ (70 : ℚ) ≤ s) ∧
    (err ≠ none → t' = task) ∧
    temp_invariant t' := by
  cases ti with
  | none =>
    unfold process_jobs_post at hrun
    obtain ⟨hgood, hbad⟩ := process_jobs_finish_spec _ _ _ _ _ _ _ hrun
    obtain ⟨hm, hs, _, _⟩ := apply_links_preserves task wl sl pl
    refine ⟨fun he => ?_, fun hne => hbad hne, ?_⟩
    · obtain ⟨ht, hw, hp, hsc, hmt⟩ := hgood he
      subst ht
      refine ⟨rfl, rfl, hw, hp, ?_⟩
      obtain ⟨s, hss, hs70⟩ := hinv (hm ▸ hmt)
      exact ⟨s, by simpa [hs] using hss, hs70⟩
    · intro hmt
      by_cases he : err = none
      · obtain ⟨ht, _, _, _, hmt'⟩ := hgood he
        subst ht
        obtain ⟨s, hss, hs70⟩ := hinv (hm ▸ hmt')
        exact ⟨s, by simpa [hs] using hss, hs70⟩
      · have ht := hbad he
        subst ht
        exact hinv hmt
  | some oi =>
    cases oi with
    | none =>
      unfold process_jobs_post at hrun
      simp only [Prod.mk.injEq] at hrun
      obtain ⟨⟨ht, _⟩, herr⟩ := hrun
      subst ht
      exact ⟨fun he => absurd (herr.trans he) (by simp), fun _ => rfl,
        fun hmt => hinv hmt⟩
    | some score =>
      unfold process_jobs_post at hrun
      obtain ⟨hgood, hbad⟩ := process_jobs_finish_spec _ _ _ _ _ _ _ hrun
      refine ⟨fun he => ?_, fun hne => hbad hne, ?_⟩
      · obtain ⟨ht, hw, hp, _, hmt⟩ := hgood he
        subst ht
        refine ⟨rfl, rfl, hw, hp, ⟨score, rfl, ?_⟩⟩
        exact of_decide_eq_true hmt
      · intro hmt
        by_cases he : err = none
        · obtain ⟨ht, _, _, _, hmt'⟩ := hgood he
          subst ht
          exact ⟨score, rfl, of_decide_eq_true hmt'⟩
        · have ht := hbad he
          subst ht
          exact hinv hmt

/-- An `ai_plag` task with both links set and no score yet. -/
def taskC10 : TaskAlloc :=
  { task_type := "ai_plag", allocated_to := some 5, allocated_by := some 9,
    status := "in_progress", start_date_time := none, end_date_time := none,
    completed_at := none, writer_final_link := "w-link", summary_link := "",
    process_final_link := "p-link", temperature_matched := false,
    temperature_score := none }

/-- Claim C10 witness: the theorem applied to a concrete request that
records a score of 85 and marks complete — the task completes. -/
theorem C10_mark_complete_gate_witness :
    ((process_jobs_post taskC10 "in_progress" "" "" "" (some (some 85)) true 7).2 = none →
      (process_jobs_post taskC10 "in_progress" "" "" "" (some (some 85)) true 7).1.1.status = "completed" ∧
      (process_jobs_post taskC10 "in_progress" "" "" "" (some (some 85)) true 7).1.1.completed_at = some 7 ∧
      (process_jobs_post taskC10 "in_progress" "" "" "" (some (some 85)) true 7).1.1.writer_final_link ≠ "" ∧
      (process_jobs_post taskC10 "in_progress" "" "" "" (some (some 85)) true 7).1.1.process_final_link ≠ "" ∧
      ∃ s, (process_jobs_post taskC10 "in_progress" "" "" "" (some (some 85)) true 7).1.1.temperature_score = some s ∧
        (70 : ℚ) ≤ s) ∧
    ((process_jobs_post taskC10 "in_progress" "" "" "" (some (some 85)) true 7).2 ≠ none →
      (process_jobs_post taskC10 "in_progress" "" "" "" (some (some 85)) true 7).1.1 = taskC10) ∧
    temp_invariant (process_jobs_post taskC10 "in_progress" "" "" "" (some (some 85)) true 7).1.1 :=
  C10_mark_complete_gate taskC10 "in_progress" "" "" "" (some (some 85)) 7
    (process_jobs_post taskC10 "in_progress" "" "" "" (some (some 85)) true 7).1.1
    (process_jobs_post taskC10 "in_progress" "" "" "" (some (some 85)) true 7).1.2
    (process_jobs_post taskC10 "in_progress" "" "" "" (some (some 85)) true 7).2
    rfl (fun h => absurd h (by decide))

/-- Stripping never lengthens a string. -/
lemma pyStrip_length_le (s : String) : (pyStrip s).length ≤ s.length := by
  show (((s.data.dropWhile isSpaceChar).reverse.dropWhile isSpaceChar).reverse).length ≤
    s.data.length
  rw [List.length_reverse]
  calc ((s.data.dropWhile isSpaceChar).reverse.dropWhile isSpaceChar).length
      ≤ (s.data.dropWhile isSpaceChar).reverse.length :=
        (List.dropWhile_suffix _).sublist.length_le
    _ = (s.data.dropWhile isSpaceChar).length := List.length_reverse _
    _ ≤ s.data.length := (List.dropWhile_suffix _).sublist.length_le

/-- A query-eligible job: degree 1 with software support. -/
def jobC8 : Job :=
  { job_category := "IT", software_type := some "IT_withsoftware", degree := 1,
    word_count := 800, status := "allocated", allocator_comment := none }

/-- Claim C8, counterexample: a request whose raw query text has exactly 10
characters ("123456789" plus a trailing space) on a query-eligible job is
rejected — the handler strips whitespace first, leaving 9 characters — and
no JobQuery row is created. -/
theorem C8_counterexample :
    ("123456789 ").length = 10 ∧
    can_have_query jobC8 = true ∧
    raise_query jobC8 [] 4 "123456789 " =
      ([], some "Please provide a detailed query (minimum 10 characters).") := by
  decide

/-- Claim C8 (amended): the 10-character minimum applies to the
whitespace-stripped query text.  On a query-eligible job, stripped text
shorter than 10 characters is rejected with a validation message and no
JobQuery row is created (in particular any raw text shorter than 10
characters is rejected, since stripping only shortens); stripped text of
at least 10 characters creates exactly one open JobQuery.  An ineligible
job is always rejected. -/
theorem C8_raise_query (job : Job) (queries : List JobQueryRow) (actor : Nat)
    (text : String) :
    (can_have_query job = false →
      raise_query job queries actor text =
        (queries,
         some "Queries are not enabled for this job (requires degree 1-5 with software support).")) ∧
    (can_have_query job = true → (pyStrip text).length < 10 →
      raise_query job queries actor text =
        (queries, some "Please provide a detailed query (minimum 10 characters).")) ∧
    (can_have_query job = true → text.length < 10 →
      raise_query job queries actor text =
        (queries, some "Please provide a detailed query (minimum 10 characters).")) ∧
    (can_have_query job = true → 10 ≤ (pyStrip text).length →
      raise_query job queries actor text =
        (queries ++ [⟨actor, pyStrip text, "open"⟩], none)) := by
  have hshort : text.length < 10 → (pyStrip text).length < 10 :=
    fun h => lt_of_le_of_lt (pyStrip_length_le text) h
  refine ⟨fun hq => ?_, fun hq hl => ?_, fun hq hl => ?_, fun hq hl => ?_⟩
  · unfold raise_query
    rw [if_pos (by simp [hq])]
  · unfold raise_query
    rw [if_neg (by simp [hq]), if_pos hl]
  · unfold raise_query
    rw [if_neg (by simp [hq]), if_pos (hshort hl)]
  · unfold raise_query
    rw [if_neg (by simp [hq]), if_neg (by omega)]

/-- Claim C8 witness: a 20-character query on the eligible job creates
exactly one open JobQuery. -/
theorem C8_raise_query_witness :
    raise_query jobC8 [] 4 "what is the deadline" =
      ([] ++ [⟨4, pyStrip "what is the deadline", "open"⟩], none) :=
  (C8_raise_query jobC8 [] 4 "what is the deadline").2.2.2 (by decide) (by decide)

/-- User 7 is a process-team member, user 9 an allocator. -/
def roleC2 : Nat → Option String :=
  fun u => if u == 7 then some "process" else
    if u == 9 then some "allocator" else none

/-- A pending job with no allocations yet. -/
def jobC2 : Job :=
  { job_category := "NONIT", software_type := none, degree := 0,
    word_count := 1200, status := "pending", allocator_comment := none }

/-- `allocate_job` state for that job: empty allocations and history. -/
def stC2 : AllocateState :=
  { job := jobC2, allocations := [], history := [], profiles := [] }

/-- `update_task` state for that job. -/
def updC2 : UpdateState := { job := jobC2, allocations := [], history := [] }

/-- Claim C2, counterexample: the bulk `allocate_job` form assigns
`ai_plag` to process member 7 although no content_creation allocation
exists at all — the TaskAllocation row IS created and no validation error
is raised. -/
theorem C2_counterexample :
    (allocate_job_post roleC2 stC2 9 none none none (some 7) none none
      none none none).2 = none ∧
    (allocate_job_post roleC2 stC2 9 none none none (some 7) none none
      none none none).1.allocations =
      [{ task_type := "ai_plag", allocated_to := some 7, allocated_by := some 9,
         status := "pending", start_date_time := none, end_date_time := none,
         completed_at := none, writer_final_link := "", summary_link := "",
         process_final_link := "", temperature_matched := false,
         temperature_score := none }] ∧
    stC2.allocations.find? (fun a => a.task_type == "content_creation") = none := by
  decide

/-- Claim C2 (amended): the dependency gate holds only on the update_task
path of `view_job_details`: there, assigning `ai_plag` while
content_creation has no assignee fails with a validation error and leaves
the state (in particular the TaskAllocation table) unchanged.  The bulk
`allocate_job` path performs no dependency check: given a valid process
member it creates the `ai_plag` TaskAllocation row unconditionally. -/
theorem C2_dependency_gate :
    (∀ (roleOf : Nat → Option String) (profiles : List (Nat × WriterProfile))
       (st : UpdateState) (actor : Nat) (sv : String) (mi : Option Nat)
       (si ei : Option Int) (now : Int),
      ((st.allocations.find? (fun a => a.task_type == "content_creation")).bind
        (fun a => a.allocated_to)) = none →
      update_task roleOf profiles st "allocator" actor "ai_plag" sv mi si ei now =
        (st, some "AI & Plagiarism unlocks after assigning Content Creation.")) ∧
    (∀ (roleOf : Nat → Option String) (st : AllocateState) (actor u : Nat)
       (s e : Option Int),
      roleOf u = some "process" →
      st.allocations.find? (fun a => a.task_type == "ai_plag") = none →
      allocate_ai roleOf st actor (some u) s e =
        ({ st with
           allocations := st.allocations ++
             [{ task_type := "ai_plag", allocated_to := some u,
                allocated_by := some actor, status := "pending",
                start_date_time := s, end_date_time := e, completed_at := none,
                writer_final_link := "", summary_link := "",
                process_final_link := "", temperature_matched := false,
                temperature_score := none }],
           history := st.history ++
             [⟨"ai_plag", "allocated", none, some u, actor,
               "AI & Plagiarism assigned"⟩] }, none)) := by
  constructor
  · intro roleOf profiles st actor sv mi si ei now hdep
    have hdo : task_dependent_on "ai_plag" = some "content_creation" := rfl
    have hds : dependency_satisfied st.allocations "ai_plag" = false := by
      cases hf : st.allocations.find? (fun a => a.task_type == "content_creation") with
      | none => simp only [dependency_satisfied, hdo, hf]
      | some p =>
        rw [hf] at hdep
        simp only [Option.some_bind] at hdep
        simp only [dependency_satisfied, hdo, hf, hdep, Option.isSome_none]
    unfold update_task
    rw [if_neg (by simp : ¬ ("allocator" ≠ "allocator")),
      if_neg (by decide : ¬ ((!task_config_has "ai_plag") = true)),
      if_pos (by rw [hds]; rfl)]
    simp only [Prod.mk.injEq]
    exact ⟨trivial, by decide⟩
  · intro roleOf st actor u s e hu hfind
    have hif : ¬ (roleOf u ≠ some "process") := by simp [hu]
    simp only [allocate_ai]
    rw [if_neg hif]
    simp only [assign_allocation, hfind, Prod.mk.injEq]
    refine ⟨?_, trivial⟩
    rfl

/-- Claim C2 witness: the amended theorem's update_task clause at the
concrete empty state — the assignment is rejected and nothing changes. -/
theorem C2_dependency_gate_witness :
    update_task roleC2 [] updC2 "allocator" 9 "ai_plag" "in_progress" (some 7)
      none none 0 =
      (updC2, some "AI & Plagiarism unlocks after assigning Content Creation.") :=
  C2_dependency_gate.1 roleC2 [] updC2 9 "in_progress" (some 7) none none 0
    (by decide)

/-- The cancel walk leaves every user untouched who is not a
content_creation assignee. -/
lemma release_content_untouched (wc : Int) (allocs : List TaskAlloc)
    (ps : List (Nat × WriterProfile)) (u : Nat)
    (h : ∀ a ∈ allocs, a.task_type = "content_creation" → a.allocated_to ≠ some u) :
    lookupProfile (release_content_profiles wc allocs ps).1 u = lookupProfile ps u := by
  induction allocs generalizing ps with
  | nil => rfl
  | cons a rest ih =>
    have hrest : ∀ b ∈ rest, b.task_type = "content_creation" →
        b.allocated_to ≠ some u :=
      fun b hb => h b (List.mem_cons_of_mem a hb)
    unfold release_content_profiles
    by_cases hct : (a.task_type == "content_creation") = true
    · rw [if_pos hct]
      cases hao : a.allocated_to with
      | none =>
        simp only [hao]
        exact ih ps hrest
      | some w =>
        have hwu : w ≠ u := by
          have := h a (List.mem_cons_self a rest) (by simpa using hct)
          rw [hao] at this
          simpa using this
        simp only [hao]
        cases hlp : lookupProfile ps w with
        | none => simp only [hlp]
        | some p =>
          simp only [hlp]
          rw [ih (updateProfile ps w (release_capacity wc)) hrest]
          exact lookupProfile_updateProfile_ne ps w u (release_capacity wc) hwu
    · rw [if_neg hct]
      exact ih ps hrest

/-- A 1000-word job heading for cancellation. -/
def jobC6 : Job :=
  { job_category := "NONIT", software_type := none, degree := 0,
    word_count := 1000, status := "allocated", allocator_comment := none }

/-- A profile with one 1000-word job charged. -/
def pC6 : WriterProfile :=
  { is_it_writer := true, is_nonit_writer := true, is_finance_writer := true,
    is_available := true, is_sunday_off := false, is_on_holiday := false,
    is_overloaded := false, max_jobs := 5, current_jobs := 1,
    max_words := 10000, current_words := 1000, total_jobs_assigned := 1 }

/-- The job's allocations: content_creation to writer 1, decoration to
writer 2. -/
def allocsC6 : List TaskAlloc :=
  [{ task_type := "content_creation", allocated_to := some 1,
     allocated_by := some 9, status := "in_progress", start_date_time := none,
     end_date_time := none, completed_at := none, writer_final_link := "",
     summary_link := "", process_final_link := "", temperature_matched := false,
     temperature_score := none },
   { task_type := "decoration", allocated_to := some 2,
     allocated_by := some 9, status := "pending", start_date_time := none,
     end_date_time := none, completed_at := none, writer_final_link := "",
     summary_link := "", process_final_link := "", temperature_matched := false,
     temperature_score := none }]

/-- Claim C6, counterexample: cancelling via `cancel_jobs` releases only
the content_creation assignee (writer 1); the decoration assignee (writer
2) keeps current_jobs = 1, and the `view_job_details` cancel action
releases no capacity at all. -/
theorem C6_counterexample :
    (cancel_jobs_post jobC6 allocsC6 [(1, pC6), (2, pC6)] "dup order").1.1.status =
      "cancelled" ∧
    lookupProfile (cancel_jobs_post jobC6 allocsC6 [(1, pC6), (2, pC6)] "dup order").1.2 1 =
      some { pC6 with current_jobs := 0, current_words := 0 } ∧
    lookupProfile (cancel_jobs_post jobC6 allocsC6 [(1, pC6), (2, pC6)] "dup order").1.2 2 =
      some pC6 ∧
    pC6.current_jobs = 1 ∧
    (view_cancel_job jobC6 [(1, pC6), (2, pC6)] "client cancelled the order").1.2 =
      [(1, pC6), (2, pC6)] := by
  decide

/-- Claim C6 (amended): `cancel_jobs` marks the job cancelled and, in the
same operation, releases capacity only for content_creation assignees
(clamped at zero); assignees of other task types are left untouched, and
the separate `view_job_details` cancel action updates the job row without
releasing any capacity. -/
theorem C6_cancel_release :
    (∀ (job : Job) (allocs : List TaskAlloc) (ps : List (Nat × WriterProfile))
       (r : String),
      (cancel_jobs_post job allocs ps r).1.1 =
        { job with status := "cancelled", allocator_comment := some r }) ∧
    (∀ (job : Job) (allocs : List TaskAlloc) (ps : List (Nat × WriterProfile))
       (r : String) (u : Nat),
      (∀ a ∈ allocs, a.task_type = "content_creation" → a.allocated_to ≠ some u) →
      lookupProfile (cancel_jobs_post job allocs ps r).1.2 u = lookupProfile ps u) ∧
    (∀ (job : Job) (a : TaskAlloc) (rest : List TaskAlloc)
       (ps : List (Nat × WriterProfile)) (r : String) (u : Nat) (p : WriterProfile),
      a.task_type = "content_creation" → a.allocated_to = some u →
      lookupProfile ps u = some p →
      (∀ b ∈ rest, b.task_type = "content_creation" → b.allocated_to ≠ some u) →
      lookupProfile (cancel_jobs_post job (a :: rest) ps r).1.2 u =
        some (release_capacity job.word_count p)) ∧
    (∀ (job : Job) (ps : List (Nat × WriterProfile)) (r : String),
      (view_cancel_job job ps r).1.2 = ps) := by
  refine ⟨fun job allocs ps r => rfl, fun job allocs ps r u h => ?_,
    fun job a rest ps r u p hct hao hp hrest => ?_, fun job ps r => ?_⟩
  · exact release_content_untouched job.word_count allocs ps u h
  · show lookupProfile (release_content_profiles job.word_count (a :: rest) ps).1 u = _
    unfold release_content_profiles
    rw [if_pos (by simpa using hct)]
    simp only [hao, hp]
    rw [release_content_untouched job.word_count rest _ u hrest,
      lookupProfile_updateProfile_self, hp]
    rfl
  · simp only [view_cancel_job]
    split <;> rfl

/-- Claim C6 witness: the amended theorem applied to the two-allocation
job — writer 1 is released and clamped, writer 2 untouched. -/
theorem C6_cancel_release_witness :
    lookupProfile (cancel_jobs_post jobC6 allocsC6 [(1, pC6), (2, pC6)] "x").1.2 2 =
      lookupProfile [(1, pC6), (2, pC6)] 2 ∧
    lookupProfile
      (cancel_jobs_post jobC6
        (List.cons
          { task_type := "content_creation", allocated_to := some 1,
            allocated_by := some 9, status := "in_progress",
            start_date_time := none, end_date_time := none, completed_at := none,
            writer_final_link := "", summary_link := "", process_final_link := "",
            temperature_matched := false, temperature_score := none }
          []) [(1, pC6)] "x").1.2 1 =
      some (release_capacity jobC6.word_count pC6) := by
  constructor
  · exact C6_cancel_release.2.1 jobC6 allocsC6 [(1, pC6), (2, pC6)] "x" 2
      (by decide)
  · exact C6_cancel_release.2.2.1 jobC6 _ [] [(1, pC6)] "x" 1 pC6 rfl rfl rfl
      (by simp)

/-- The single history row `_assign_allocation` writes: `allocated` when
the (job, task_type) row is new, `reallocated` otherwise. -/
def assign_row (allocations : List TaskAlloc) (actor : Nat) (task_type : String)
    (member : Nat) (lbl : String) : HistoryRow :=
  match allocations.find? (fun a => a.task_type == task_type) with
  | none => ⟨task_type, "allocated", none, some member, actor, lbl ++ " assigned"⟩
  | some a => ⟨task_type, "reallocated", a.allocated_to, some member, actor,
      lbl ++ " updated"⟩

/-- `_assign_allocation` appends exactly one history row per call. -/
lemma assign_allocation_hist (allocations : List TaskAlloc)
    (history : List HistoryRow) (actor : Nat) (tt : String) (m : Nat)
    (s e : Option Int) (lbl : String) :
    (assign_allocation allocations history actor tt m s e lbl).2 =
      history ++ [assign_row allocations actor tt m lbl] := by
  unfold assign_allocation assign_row
  cases hf : allocations.find? (fun a => a.task_type == tt) <;> simp [hf]

/-- The content branch of `allocate_job` only ever appends to history. -/
lemma allocate_content_hist (roleOf : Nat → Option String) (st : AllocateState)
    (actor : Nat) (cw : Option Nat) (s e : Option Int) :
    ∃ t, (allocate_content roleOf st actor cw s e).1.history = st.history ++ t := by
  unfold allocate_content
  cases cw with
  | none => exact ⟨[], by simp⟩
  | some w =>
    dsimp only
    by_cases hr : roleOf w ≠ some "writer"
    · rw [if_pos hr]
      exact ⟨[], by simp⟩
    · rw [if_neg hr]
      cases hlp : lookupProfile st.profiles w with
      | none =>
        simp only [hlp]
        exact ⟨_, assign_allocation_hist st.allocations st.history actor
          "content_creation" w s e "Content Creation"⟩
      | some p =>
        simp only [hlp]
        exact ⟨_, assign_allocation_hist st.allocations st.history actor
          "content_creation" w s e "Content Creation"⟩

/-- The ai_plag branch of `allocate_job` only ever appends to history. -/
lemma allocate_ai_hist (roleOf : Nat → Option String) (st : AllocateState)
    (actor : Nat) (am : Option Nat) (s e : Option Int) :
    ∃ t, (allocate_ai roleOf st actor am s e).1.history = st.history ++ t := by
  unfold allocate_ai
  cases am with
  | none => exact ⟨[], by simp⟩
  | some u =>
    dsimp only
    by_cases hr : roleOf u ≠ some "process"
    · rw [if_pos hr]
      exact ⟨[], by simp⟩
    · rw [if_neg hr]
      exact ⟨_, assign_allocation_hist st.allocations st.history actor
        "ai_plag" u s e "AI & Plagiarism"⟩

/-- The decoration branch of `allocate_job` only ever appends to history. -/
lemma allocate_deco_hist (roleOf : Nat → Option String) (st : AllocateState)
    (actor : Nat) (dm : Option Nat) (s e : Option Int) :
    ∃ t, (allocate_deco roleOf st actor dm s e).1.history = st.history ++ t := by
  unfold allocate_deco
  cases dm with
  | none => exact ⟨[], by simp⟩
  | some u =>
    dsimp only
    by_cases hr : roleOf u = none
    · rw [if_pos hr]
      exact ⟨[], by simp⟩
    · rw [if_neg hr]
      exact ⟨_, assign_allocation_hist st.allocations st.history actor
        "decoration" u s e "Decoration"⟩

/-- User 1 and 2 are writers for the C5 probe. -/
def roleC5 : Nat → Option String :=
  fun u => if u == 1 || u == 2 then some "writer" else none

/-- A plain pending job. -/
def jobC5 : Job :=
  { job_category := "NONIT", software_type := none, degree := 0,
    word_count := 900, status := "pending", allocator_comment := none }

/-- A content_creation allocation held by writer 1. -/
def allocC5 : TaskAlloc :=
  { task_type := "content_creation", allocated_to := some 1,
    allocated_by := some 9, status := "pending", start_date_time := some 0,
    end_date_time := some 5, completed_at := none, writer_final_link := "",
    summary_link := "", process_final_link := "", temperature_matched := false,
    temperature_score := none }

/-- The update_task state for the C5 probe: one allocation, no history. -/
def updC5 : UpdateState := { job := jobC5, allocations := [allocC5], history := [] }

/-- Claim C5, counterexample: the update_task path reassigns the
content_creation allocation from writer 1 to writer 2 without creating any
AllocationHistory row. -/
theorem C5_counterexample :
    (update_task roleC5 [] updC5 "allocator" 9 "content_creation" "in_progress"
      (some 2) none none 0).2 = none ∧
    (update_task roleC5 [] updC5 "allocator" 9 "content_creation" "in_progress"
      (some 2) none none 0).1.allocations.map (fun a => a.allocated_to) = [some 2] ∧
    updC5.allocations.map (fun a => a.allocated_to) = [some 1] ∧
    (update_task roleC5 [] updC5 "allocator" 9 "content_creation" "in_progress"
      (some 2) none none 0).1.history = [] := by
  decide

/-- Claim C5 (amended): on the `allocate_job` path `_assign_allocation`
appends exactly one history row per call (`allocated` or `reallocated`),
`switch_writer` appends exactly one `switched` row on success and none on
failure, and history is append-only (the allocate handler only ever
extends it).  The claim fails on the update_task path of
`view_job_details`, which mutates the assignee while writing no history
row at all. -/
theorem C5_history_rows :
    (∀ (allocations : List TaskAlloc) (history : List HistoryRow) (actor : Nat)
       (tt : String) (m : Nat) (s e : Option Int) (lbl : String),
      (assign_allocation allocations history actor tt m s e lbl).2 =
        history ++ [assign_row allocations actor tt m lbl]) ∧
    (∀ (roleOf : Nat → Option String) (profiles : List (Nat × WriterProfile))
       (alloc : TaskAlloc) (job : Job) (history : List HistoryRow)
       (nw actor : Nat) (reason : String),
      ((switch_writer roleOf profiles alloc job history nw reason actor).error = none →
        (switch_writer roleOf profiles alloc job history nw reason actor).history =
          history ++ [⟨alloc.task_type, "switched", alloc.allocated_to, some nw,
            actor, reason⟩]) ∧
      ((switch_writer roleOf profiles alloc job history nw reason actor).error ≠ none →
        (switch_writer roleOf profiles alloc job history nw reason actor).history =
          history)) ∧
    (∀ (roleOf : Nat → Option String) (profiles : List (Nat × WriterProfile))
       (st : UpdateState) (actor_role : String) (actor : Nat) (tt sv : String)
       (mi : Option Nat) (si ei : Option Int) (now : Int),
      (update_task roleOf profiles st actor_role actor tt sv mi si ei now).1.history =
        st.history) ∧
    (∀ (roleOf : Nat → Option String) (st : AllocateState) (actor : Nat)
       (cw : Option Nat) (cs ce : Option Int) (am : Option Nat)
       (aas ae : Option Int) (dm : Option Nat) (ds de : Option Int),
      ∃ t, (allocate_job_post roleOf st actor cw cs ce am aas ae dm ds de).1.history =
        st.history ++ t) := by
  refine ⟨assign_allocation_hist, ?_, ?_, ?_⟩
  · intro roleOf profiles alloc job history nw actor reason
    unfold switch_writer
    by_cases h1 : roleOf nw ≠ some "writer"
    · rw [if_pos h1]
      refine ⟨?_, ?_⟩ <;> simp
    · rw [if_neg h1]
      cases hao : alloc.allocated_to with
      | none =>
        simp only [hao]
        cases hl : lookupProfile profiles nw with
        | none =>
          simp only [hl]
          refine ⟨?_, ?_⟩ <;> simp
        | some r =>
          simp only [hl]
          refine ⟨?_, ?_⟩ <;> simp
      | some w =>
        simp only [hao]
        by_cases hrw : roleOf w = some "writer"
        · rw [if_pos hrw]
          cases hlp : lookupProfile profiles w with
          | none =>
            simp only [hlp]
            refine ⟨?_, ?_⟩ <;> simp
          | some p =>
            simp only [hlp]
            cases hl2 : lookupProfile
                (updateProfile profiles w (release_capacity job.word_count)) nw with
            | none =>
              simp only [hl2]
              refine ⟨?_, ?_⟩ <;> simp
            | some r =>
              simp only [hl2]
              refine ⟨?_, ?_⟩ <;> simp
        · rw [if_neg hrw]
          cases hl : lookupProfile profiles nw with
          | none =>
            simp only [hl]
            refine ⟨?_, ?_⟩ <;> simp
          | some r =>
            simp only [hl]
            refine ⟨?_, ?_⟩ <;> simp
  · intro roleOf profiles st actor_role actor tt sv mi si ei now
    simp only [update_task]
    repeat' split
    all_goals rfl
  · intro roleOf st actor cw cs ce am aas ae dm ds de
    unfold allocate_job_post
    obtain ⟨t1, h1⟩ := allocate_content_hist roleOf st actor cw cs ce
    cases hc : allocate_content roleOf st actor cw cs ce with
    | mk st1 err1 =>
      rw [hc] at h1
      dsimp only at h1
      cases err1 with
      | some e1 =>
        dsimp only
        exact ⟨t1, h1⟩
      | none =>
        dsimp only
        obtain ⟨t2, h2⟩ := allocate_ai_hist roleOf st1 actor am aas ae
        cases ha : allocate_ai roleOf st1 actor am aas ae with
        | mk st2 err2 =>
          rw [ha] at h2
          dsimp only at h2
          cases err2 with
          | some e2 =>
            dsimp only
            exact ⟨t1 ++ t2, by rw [h2, h1, List.append_assoc]⟩
          | none =>
            dsimp only
            obtain ⟨t3, h3⟩ := allocate_deco_hist roleOf st2 actor dm ds de
            cases hd : allocate_deco roleOf st2 actor dm ds de with
            | mk st3 err3 =>
              rw [hd] at h3
              dsimp only at h3
              cases err3 with
              | some e3 =>
                dsimp only
                exact ⟨t1 ++ (t2 ++ t3), by rw [h3, h2, h1, List.append_assoc,
                  List.append_assoc]⟩
              | none =>
                dsimp only
                exact ⟨t1 ++ (t2 ++ t3), by rw [h3, h2, h1, List.append_assoc,
                  List.append_assoc]⟩

/-- Claim C5 witness: the amended theorem's switch clause at a concrete
successful switch — exactly one `switched` row is appended. -/
theorem C5_history_rows_witness :
    (switch_writer roleC5 [(1, pC6), (2, pC6)] allocC5 jobC5 [] 2 "load" 9).history =
      [] ++ [⟨allocC5.task_type, "switched", allocC5.allocated_to, some 2, 9, "load"⟩] :=
  (C5_history_rows.2.1 roleC5 [(1, pC6), (2, pC6)] allocC5 jobC5 [] 2 9 "load").1
    (by decide)

end CRM
